import Mathlib

/-!
Verification development for the IELTS speaking-test scoring pipeline.

The pipeline under study:
  transcript → linguistic metrics → rule-based sub-scores (fluency,
  vocabulary, grammar) → blended with an external judge's sub-scores
  (fluency, vocabulary, grammar, coherence) into an aggregate result →
  per-identity progress accumulation.

Numbers are modelled as exact rationals (ℚ).  Python's `round(x, 1)` is
modelled as round-half-to-even at one decimal (`pyRound1`); the claims we
check only speak about rounding "within epsilon", and every concrete
instance used below avoids exact-half ties, so the tie-breaking convention
is immaterial.  External library calls (spaCy tokenization, textstat's
readability grade, numpy's standard deviation, LanguageTool's error
matches, the network call to the judge service) are modelled as explicit
inputs; everything the repository's own code does with those values is
translated faithfully.
-/

namespace IELTS

/-! ## Rounding and clamping -/

/-- Round a rational to the nearest integer, ties to even
(the convention of Python's builtin `round`). -/
def roundHalfEven (q : ℚ) : ℤ :=
  let f := ⌊q⌋
  if q - f < 1/2 then f
  else if 1/2 < q - f then f + 1
  else if f % 2 = 0 then f else f + 1

/-- Python's `round(x, 1)`: one decimal place, ties to even. -/
def pyRound1 (q : ℚ) : ℚ := (roundHalfEven (q * 10) : ℚ) / 10

/-- Python's `min(9, max(0, x))`, the band-scale clamp used by every
rule-based score component. -/
def clamp09 (x : ℚ) : ℚ := min 9 (max 0 x)

theorem clamp09_nonneg (x : ℚ) : 0 ≤ clamp09 x := by
  unfold clamp09
  exact le_min (by norm_num) (le_max_left 0 x)

theorem clamp09_le_nine (x : ℚ) : clamp09 x ≤ 9 := min_le_left 9 _

theorem roundHalfEven_err (q : ℚ) : |(roundHalfEven q : ℚ) - q| ≤ 1/2 := by
  unfold roundHalfEven
  have h0 : (⌊q⌋ : ℚ) ≤ q := Int.floor_le q
  have h1 : q < (⌊q⌋ : ℚ) + 1 := Int.lt_floor_add_one q
  by_cases hlt : q - (⌊q⌋ : ℚ) < 1/2
  · simp only [hlt, if_true]
    rw [abs_le]; constructor <;> linarith
  · by_cases hgt : 1/2 < q - (⌊q⌋ : ℚ)
    · simp only [hlt, hgt, if_false, if_true]
      rw [abs_le]; push_cast; constructor <;> linarith
    · have heq : q - (⌊q⌋ : ℚ) = 1/2 := le_antisymm (not_lt.mp hgt) (not_lt.mp hlt)
      simp only [hlt, hgt, if_false]
      by_cases hpar : ⌊q⌋ % 2 = 0
      · simp only [hpar, if_true]
        rw [abs_le]; constructor <;> linarith
      · simp only [hpar, if_false]
        rw [abs_le]; push_cast; constructor <;> linarith

/-- Rounding to one decimal moves a value by at most 1/20. -/
theorem pyRound1_err (q : ℚ) : |pyRound1 q - q| ≤ 1/20 := by
  have h := roundHalfEven_err (q * 10)
  unfold pyRound1
  have : (roundHalfEven (q * 10) : ℚ) / 10 - q = ((roundHalfEven (q * 10) : ℚ) - q * 10) / 10 := by
    ring
  rw [this, abs_div]
  have h10 : |(10 : ℚ)| = 10 := by norm_num
  rw [h10, div_le_iff₀ (by norm_num : (0:ℚ) < 10)]
  linarith

/-! ## Rule-based scorer (`speech_analyzer.py`)

`analyze_fluency(transcript, doc)` receives the transcript and the spaCy
document.  The quantities the repository's code extracts from external
libraries — the punctuation-free token count (`word_count`), the number
of sentences (`sentence_count`), textstat's `flesch_kincaid_grade`
(`fk_grade`) and numpy's standard deviation of the per-sentence token
counts (`stdev_raw`) — are passed here as explicit arguments.  The filler
count is computed from the transcript exactly as the source does:
`sum(transcript.lower().count(f) for f in filler_words)`, a
case-insensitive, non-overlapping substring count. -/

/-- Scan step for `countSubstr`, fuelled by the input length: on a match,
skip `sub.length` characters (Python counts non-overlapping occurrences),
otherwise advance one character. -/
def countSubstrGo (sub : List Char) : ℕ → List Char → ℕ
  | 0, _ => 0
  | _ + 1, [] => 0
  | fuel + 1, c :: rest =>
    if sub.isPrefixOf (c :: rest) then
      1 + countSubstrGo sub fuel ((c :: rest).drop sub.length)
    else countSubstrGo sub fuel rest

/-- Python's non-overlapping `str.count(sub)` over character lists
(every filler word is non-empty, so the fuel `s.length` is never
exhausted early). -/
def countSubstr (s sub : List Char) : ℕ := countSubstrGo sub s.length s

/-- The fixed filler-word list from `analyze_fluency`. -/
def filler_words : List (List Char) :=
  ["um".data, "uh".data, "er".data, "ah".data, "like".data,
   "you know".data, "sort of".data, "kind of".data]

/-- Fixes `sum(transcript.lower().count(filler) for filler in filler_words)`. -/
def fillerCount (transcript : String) : ℕ :=
  (filler_words.map (countSubstr (transcript.data.map Char.toLower))).sum

/-- Embedding of `analyze_fluency`.  The constant `estimated_speech_rate`
is 150 as in the source; each component is clamped with
`min(9, max(0, _))` before the weighted combination. -/
def analyze_fluency (transcript : String) (word_count sentence_count : ℕ)
    (fk_grade stdev_raw : ℚ) : ℚ :=
  let filler_count : ℕ := fillerCount transcript
  let estimated_speech_rate : ℚ := 150
  -- `np.std(sentence_lengths) if len(sentence_lengths) > 1 else 0`,
  -- inside `if sentence_count > 0`, else 0: the two guards collapse to
  -- `sentence_count > 1`.
  let sentence_length_variation : ℚ := if 1 < sentence_count then stdev_raw else 0
  let speech_rate_score := clamp09 (4.5 + (estimated_speech_rate - 120) / 20)
  let filler_ratio : ℚ := (filler_count : ℚ) / max 1 (word_count : ℚ)
  let filler_score := clamp09 (9 - filler_ratio * 100)
  let complexity_score := clamp09 (4.5 + (fk_grade - 7) * 0.5)
  let sentence_variation_score := clamp09 (4.5 + sentence_length_variation * 0.5)
  speech_rate_score * 0.3 + filler_score * 0.3 +
    complexity_score * 0.2 + sentence_variation_score * 0.2

/-- Embedding of `analyze_vocabulary`.  `total_words` and `unique_words`
are the sizes of `all_words` and `set(all_words)`; the numpy means of
word length, syllable count and frequency rank over the non-punctuation
tokens are the `_raw` arguments, each guarded by the source's
`if all_words else 0` (resp. `if word_ranks else 0`) fallback. -/
def analyze_vocabulary (total_words unique_words : ℕ)
    (avg_word_length_raw avg_syllables_raw avg_word_rank_raw : ℚ) : ℚ :=
  let lexical_diversity : ℚ :=
    if 0 < total_words then (unique_words : ℚ) / (total_words : ℚ) else 0
  let avg_word_length : ℚ := if 0 < total_words then avg_word_length_raw else 0
  let avg_syllables : ℚ := if 0 < total_words then avg_syllables_raw else 0
  let avg_word_rank : ℚ := if 0 < total_words then avg_word_rank_raw else 0
  let diversity_score := clamp09 (lexical_diversity * 15)
  let length_score := clamp09 (4.5 + (avg_word_length - 4.5) * 1.5)
  let syllable_score := clamp09 (4.5 + (avg_syllables - 1.5) * 3)
  let rarity_score := clamp09 (4.5 - avg_word_rank / 10000)
  diversity_score * 0.4 + length_score * 0.2 +
    syllable_score * 0.2 + rarity_score * 0.2

/-- Python's whitespace character test used by `str.split()` / `str.strip()`
(ASCII whitespace suffices for the transcripts considered). -/
def isPySpace (c : Char) : Bool :=
  c = ' ' || c = '\t' || c = '\n' || c = '\x0d' || c = '\x0b' || c = '\x0c'

/-- Accumulator pass for `pySplit`: `acc` holds the current chunk,
reversed. -/
def pySplitAux : List Char → List Char → List (List Char)
  | [], acc => if acc.isEmpty then [] else [acc.reverse]
  | c :: rest, acc =>
    if isPySpace c then
      if acc.isEmpty then pySplitAux rest []
      else acc.reverse :: pySplitAux rest []
    else pySplitAux rest (c :: acc)

/-- Python's argument-free `str.split()`: split on runs of whitespace,
discarding empty chunks. -/
def pySplit (s : List Char) : List (List Char) := pySplitAux s []

/-- Number of whitespace-separated chunks, `len(transcript.split())`. -/
def splitWordCount (transcript : String) : ℕ := (pySplit transcript.data).length

/-- Embedding of `analyze_grammar`: the LanguageTool match count is the
explicit `error_count` argument; the word count is
`len(transcript.split())`, computed from the raw transcript. -/
def analyze_grammar (transcript : String) (error_count : ℕ) : ℚ :=
  let word_count := splitWordCount transcript
  let error_density := ((error_count : ℚ) / max 1 (word_count : ℚ)) * 100
  clamp09 (9 - error_density)

/-- Just the error-density expression of `analyze_grammar`, exposed for
the word-count claims. -/
def grammar_error_density (transcript : String) (error_count : ℕ) : ℚ :=
  ((error_count : ℚ) / max 1 (splitWordCount transcript : ℚ)) * 100

/-- One token of a spaCy document: its text plus the punctuation /
whitespace flags the scoring code consults. -/
structure Token where
  text : String
  is_punct : Bool
  is_space : Bool
deriving DecidableEq

/-- The word count used by the metrics bundle:
`len([token for token in doc if not token.is_punct and not token.is_space])`. -/
def docWordCount (doc : List Token) : ℕ :=
  (doc.filter (fun t => ¬ t.is_punct && ¬ t.is_space)).length

/-- Error-density as the specification describes it: error count over
`max(1, word_count)` with the metrics-bundle (token-based) word count.
Modelled from the spec for comparison with `grammar_error_density`. -/
def grammar_error_density_spec (doc : List Token) (error_count : ℕ) : ℚ :=
  ((error_count : ℚ) / max 1 (docWordCount doc : ℚ)) * 100

/-- Result of the rule-based pipeline `analyze_speech`: the returned
dictionary's numeric fields (each rounded to one decimal at the return). -/
structure NlpResult where
  fluency_score : ℚ
  vocabulary_score : ℚ
  grammar_score : ℚ
  overall_score : ℚ
deriving DecidableEq

/-- Embedding of `calculate_overall_score`. -/
def calculate_overall_score (fluency_score vocabulary_score grammar_score : ℚ) : ℚ :=
  fluency_score * 0.4 + vocabulary_score * 0.3 + grammar_score * 0.3

/-- Embedding of `analyze_speech`: runs the three analyzers on the
transcript and its externally derived metrics, and rounds every returned
score to one decimal place (`round(_, 1)` at the return statement). -/
def analyze_speech (transcript : String) (word_count sentence_count : ℕ)
    (fk_grade stdev_raw : ℚ) (total_words unique_words : ℕ)
    (avg_word_length_raw avg_syllables_raw avg_word_rank_raw : ℚ)
    (error_count : ℕ) : NlpResult :=
  let fluency_score := analyze_fluency transcript word_count sentence_count fk_grade stdev_raw
  let vocabulary_score := analyze_vocabulary total_words unique_words
    avg_word_length_raw avg_syllables_raw avg_word_rank_raw
  let grammar_score := analyze_grammar transcript error_count
  let overall_score := calculate_overall_score fluency_score vocabulary_score grammar_score
  { fluency_score := pyRound1 fluency_score
    vocabulary_score := pyRound1 vocabulary_score
    grammar_score := pyRound1 grammar_score
    overall_score := pyRound1 overall_score }

/-! ## Score aggregation (`combine_analyses` in `app.py`) -/

/-- The numeric fields `combine_analyses` reads from the rule-based
(NLP) analysis dictionary. -/
structure NlpScores where
  fluency_score : ℚ
  vocabulary_score : ℚ
  grammar_score : ℚ
deriving DecidableEq

/-- The numeric fields `combine_analyses` reads from the judge's
analysis dictionary. -/
structure GeminiScores where
  fluency_score : ℚ
  vocabulary_score : ℚ
  grammar_score : ℚ
  coherence_score : ℚ
deriving DecidableEq

/-- The numeric fields of the combined analysis dictionary. -/
structure CombinedResult where
  fluency_score : ℚ
  vocabulary_score : ℚ
  grammar_score : ℚ
  coherence_score : ℚ
  overall_score : ℚ
deriving DecidableEq

/-- Embedding of `combine_analyses`: 0.4/0.6 weighted blend of each
sub-score, overall from the unrounded blends, rounding applied in the
returned dictionary only. -/
def combine_analyses (nlp : NlpScores) (gemini : GeminiScores) : CombinedResult :=
  let fluency_combined := nlp.fluency_score * 0.4 + gemini.fluency_score * 0.6
  let vocabulary_combined := nlp.vocabulary_score * 0.4 + gemini.vocabulary_score * 0.6
  let grammar_combined := nlp.grammar_score * 0.4 + gemini.grammar_score * 0.6
  let overall_score :=
    fluency_combined * 0.3 + vocabulary_combined * 0.25 +
      grammar_combined * 0.25 + gemini.coherence_score * 0.2
  { fluency_score := pyRound1 fluency_combined
    vocabulary_score := pyRound1 vocabulary_combined
    grammar_score := pyRound1 grammar_combined
    coherence_score := pyRound1 gemini.coherence_score
    overall_score := pyRound1 overall_score }

/-- The three sub-scores `combine_analyses` extracts from an
`analyze_speech` result dictionary. -/
def NlpResult.scores (r : NlpResult) : NlpScores :=
  { fluency_score := r.fluency_score
    vocabulary_score := r.vocabulary_score
    grammar_score := r.grammar_score }

/-! ## Progress tracking (`update_user_progress` in `app.py`) -/

/-- The per-identity `UserProgress` record's numeric fields. -/
structure UserProgress where
  test_count : ℕ
  total_score : ℚ
  average_score : ℚ
  latest_score : ℚ
deriving DecidableEq

/-- Embedding of `update_user_progress`: the current record for the
identity (`none` when no row exists yet) and the new overall score. -/
def update_user_progress (progress : Option UserProgress) (score : ℚ) : UserProgress :=
  match progress with
  | some p =>
    { test_count := p.test_count + 1
      total_score := p.total_score + score
      average_score := (p.total_score + score) / (p.test_count + 1 : ℕ)
      latest_score := score }
  | none =>
    { test_count := 1
      total_score := score
      average_score := score
      latest_score := score }

/-- State of an identity's progress row after recording a sequence of
overall scores, starting from no row. -/
def recordScores (scores : List ℚ) : Option UserProgress :=
  scores.foldl (fun p s => some (update_user_progress p s)) none

/-! ## Judge adapter (`gemini_analyzer.py`)

The network call is external; its outcome is modelled as
`Except Unit String` — `.error ()` for any exception raised while calling
the service, `.ok text` for a returned response body.  Everything from
`response.text` on (fenced-block extraction, `json.loads`, the
field-defaulting loop, the feedback `isinstance` check, and both fallback
paths) is repository code and is translated below. -/

/-- A parsed JSON value, as produced by `json.loads`. -/
inductive JsonVal where
  | num (q : ℚ)
  | str (s : String)
  | bool (b : Bool)
  | null
  | arr (xs : List JsonVal)
  | obj (fields : List (String × JsonVal))

/-- First-match lookup in a field list (Python `dict` read). -/
def dictGet : List (String × JsonVal) → String → Option JsonVal
  | [], _ => none
  | (k, v) :: rest, key => if k = key then some v else dictGet rest key

/-- Update-or-append write to a field list (Python `dict` assignment). -/
def dictSet : List (String × JsonVal) → String → JsonVal → List (String × JsonVal)
  | [], key, val => [(key, val)]
  | (k, v) :: rest, key, val =>
    if k = key then (k, val) :: rest else (k, v) :: dictSet rest key val

/-! ### Python string primitives used by the adapter -/

/-- Opening-brace character, `Char.ofNat 123`. -/
def lbraceChar : Char := Char.ofNat 123

/-- Closing-brace character, `Char.ofNat 125`. -/
def rbraceChar : Char := Char.ofNat 125

/-- Python's `str.find(sub, start)`: index of the first occurrence of
`sub` at or after `start`, or `-1`. -/
def pyFind (s sub : List Char) (start : ℕ) : Int :=
  match (List.range (s.length + 1)).find?
      (fun i => decide (start ≤ i) && sub.isPrefixOf (s.drop i)) with
  | some i => (i : Int)
  | none => -1

/-- Python's slice `s[a:b]` for integer bounds (negative indices count
from the end; out-of-range bounds clamp). -/
def pySlice (s : List Char) (a b : Int) : List Char :=
  let n : Int := s.length
  let norm : Int → ℕ := fun i => (max 0 (min n (if i < 0 then n + i else i))).toNat
  (s.take (norm b)).drop (norm a)

/-- Python's argument-free `str.strip()`. -/
def pyStrip (s : List Char) : List Char :=
  ((s.dropWhile isPySpace).reverse.dropWhile isPySpace).reverse

/-- Fenced-block extraction from `analyze_with_gemini`: if the response
contains "```json", take the text between the end of that marker and the
next "```" and strip it; otherwise, if it contains "```", do the same
after that fence; otherwise use the text as is. -/
def extractFenced (response_text : List Char) : List Char :=
  let fencedJson := "```json".data
  let fence := "```".data
  if 0 ≤ pyFind response_text fencedJson 0 then
    let json_start := pyFind response_text fencedJson 0 + 7
    let json_end := pyFind response_text fence json_start.toNat
    pyStrip (pySlice response_text json_start json_end)
  else if 0 ≤ pyFind response_text fence 0 then
    let json_start := pyFind response_text fence 0 + 3
    let json_end := pyFind response_text fence json_start.toNat
    pyStrip (pySlice response_text json_start json_end)
  else response_text

/-! ### A model of `json.loads`

A recursive-descent parser over characters, fuelled by the input length
(each unit of fuel guards one recursive descent, and every descent
consumes at least one character, so `length + 1` fuel is always enough).
It accepts the JSON grammar — objects, arrays, strings with the common
escapes, numbers with optional sign / fraction, `true` / `false` /
`null` — and rejects everything else, returning `none` exactly where
`json.loads` raises. -/

/-- JSON whitespace. -/
def isJsonWs (c : Char) : Bool := c = ' ' || c = '\t' || c = '\n' || c = '\x0d'

/-- Read the body of a JSON string after the opening quote; returns the
decoded characters and the rest of the input after the closing quote. -/
def parseStringBody : List Char → Option (List Char × List Char)
  | [] => none
  | c :: rest =>
    if c = '\"' then some ([], rest)
    else if c = '\\' then
      match rest with
      | [] => none
      | e :: rest2 =>
        let dec : Option Char :=
          if e = '\"' then some '\"'
          else if e = '\\' then some '\\'
          else if e = '/' then some '/'
          else if e = 'n' then some '\n'
          else if e = 't' then some '\t'
          else if e = 'r' then some '\x0d'
          else if e = 'b' then some '\x08'
          else if e = 'f' then some '\x0c'
          else none
        match dec with
        | some d => (parseStringBody rest2).map (fun (s, r) => (d :: s, r))
        | none => none
    else (parseStringBody rest).map (fun (s, r) => (c :: s, r))

/-- Take a maximal run of decimal digits, returning their value, how
many there were, and the rest. -/
def takeDigits : List Char → ℕ → ℕ → ℕ × ℕ × List Char
  | [], acc, count => (acc, count, [])
  | c :: rest, acc, count =>
    if c.isDigit then takeDigits rest (acc * 10 + (c.toNat - 48)) (count + 1)
    else (acc, count, c :: rest)

/-- Parse a JSON number (optional minus, integer part, optional
fraction); returns its exact rational value. -/
def parseNumber (s : List Char) : Option (ℚ × List Char) :=
  let (neg, s1) := match s with
    | '-' :: rest => (true, rest)
    | _ => (false, s)
  let (ip, ic, s2) := takeDigits s1 0 0
  if ic = 0 then none
  else
    let (q, rest) : ℚ × List Char :=
      match s2 with
      | '.' :: s3 =>
        let (fp, fc, s4) := takeDigits s3 0 0
        ((ip : ℚ) + (fp : ℚ) / ((10 : ℚ) ^ fc), s4)
      | _ => ((ip : ℚ), s2)
    some (if neg then -q else q, rest)

mutual

/-- Parse one JSON value. -/
def parseValue : ℕ → List Char → Option (JsonVal × List Char)
  | 0, _ => none
  | fuel + 1, s =>
    match s.dropWhile isJsonWs with
    | [] => none
    | c :: rest =>
      if c = '\"' then
        (parseStringBody rest).map (fun (cs, r) => (JsonVal.str (String.mk cs), r))
      else if c = lbraceChar then
        match rest.dropWhile isJsonWs with
        | d :: rest2 =>
          if d = rbraceChar then some (JsonVal.obj [], rest2)
          else parseObjMembers fuel (d :: rest2) []
        | [] => none
      else if c = '[' then
        match rest.dropWhile isJsonWs with
        | d :: rest2 =>
          if d = ']' then some (JsonVal.arr [], rest2)
          else parseArrElems fuel (d :: rest2) []
        | [] => none
      else if c = 't' then
        if "rue".data.isPrefixOf rest then some (JsonVal.bool true, rest.drop 3) else none
      else if c = 'f' then
        if "alse".data.isPrefixOf rest then some (JsonVal.bool false, rest.drop 4) else none
      else if c = 'n' then
        if "ull".data.isPrefixOf rest then some (JsonVal.null, rest.drop 3) else none
      else
        (parseNumber (c :: rest)).map (fun (q, r) => (JsonVal.num q, r))

/-- Parse the members of an object after its opening brace (first member
pending); accumulates fields with `dictSet`, so a repeated key keeps the
last value, as `json.loads` does. -/
def parseObjMembers : ℕ → List Char → List (String × JsonVal) →
    Option (JsonVal × List Char)
  | 0, _, _ => none
  | fuel + 1, s, acc =>
    match s.dropWhile isJsonWs with
    | '\"' :: rest =>
      match parseStringBody rest with
      | none => none
      | some (key, r1) =>
        match r1.dropWhile isJsonWs with
        | ':' :: r2 =>
          match parseValue fuel r2 with
          | none => none
          | some (v, r3) =>
            let acc2 := dictSet acc (String.mk key) v
            match r3.dropWhile isJsonWs with
            | ',' :: r4 => parseObjMembers fuel r4 acc2
            | d :: r4 =>
              if d = rbraceChar then some (JsonVal.obj acc2, r4) else none
            | [] => none
        | _ => none
    | _ => none

/-- Parse the elements of an array after its opening bracket (first
element pending). -/
def parseArrElems : ℕ → List Char → List JsonVal → Option (JsonVal × List Char)
  | 0, _, _ => none
  | fuel + 1, s, acc =>
    match parseValue fuel s with
    | none => none
    | some (v, r1) =>
      match r1.dropWhile isJsonWs with
      | ',' :: r2 => parseArrElems fuel r2 (acc ++ [v])
      | ']' :: r2 => some (JsonVal.arr (acc ++ [v]), r2)
      | _ => none

end

/-- Model of `json.loads`: parse one value and require that only
whitespace remains. -/
def jsonLoads (s : List Char) : Option JsonVal :=
  match parseValue (s.length + 1) s with
  | some (v, rest) => if (rest.dropWhile isJsonWs).isEmpty then some v else none
  | none => none

/-! ### Normalization and fallback -/

/-- The field list `required_fields` from `analyze_with_gemini`, in the
order the defaulting loop visits it. -/
def required_fields : List String :=
  ["fluency_score", "vocabulary_score", "grammar_score", "coherence_score",
   "overall_score", "feedback"]

/-- One iteration of the defaulting loop: a missing `coherence_score`
gets `analysis.get('fluency_score', 6.0)` (evaluated after the fluency
field has already been visited), every other missing field gets 6.0. -/
def normalizeStep (d : List (String × JsonVal)) (field : String) :
    List (String × JsonVal) :=
  if (dictGet d field).isSome then d
  else if field = "coherence_score" then
    dictSet d field ((dictGet d "fluency_score").getD (JsonVal.num 6))
  else dictSet d field (JsonVal.num 6)

/-- The `isinstance(analysis['feedback'], dict)` repair: a missing or
non-dict feedback is replaced with empty lists. -/
def fixFeedback (d : List (String × JsonVal)) : List (String × JsonVal) :=
  match dictGet d "feedback" with
  | some (JsonVal.obj _) => d
  | _ =>
    dictSet d "feedback"
      (JsonVal.obj
        [("strengths", JsonVal.arr []), ("weaknesses", JsonVal.arr []),
         ("suggestions", JsonVal.arr [])])

/-- The full normalization a successfully parsed judge object undergoes. -/
def normalizeAnalysis (d : List (String × JsonVal)) : List (String × JsonVal) :=
  fixFeedback (required_fields.foldl normalizeStep d)

/-- The serialized neutral feedback, `json.dumps` of the fixed fallback
dictionary (Python's default separators). -/
def neutralFeedback : String :=
  "\x7b\"strengths\": [\"The response addresses the question\"], \"weaknesses\": [\"Unable to perform detailed analysis\"], \"suggestions\": [\"Try to speak more clearly and at a moderate pace\"]\x7d"

/-- The fixed neutral analysis returned on any judge failure: all five
scores 6.0, feedback the serialized fixed strings. -/
def default_analysis : List (String × JsonVal) :=
  [("fluency_score", JsonVal.num 6), ("vocabulary_score", JsonVal.num 6),
   ("grammar_score", JsonVal.num 6), ("coherence_score", JsonVal.num 6),
   ("overall_score", JsonVal.num 6), ("feedback", JsonVal.str neutralFeedback)]

/-- The parsing stage of `analyze_with_gemini` up to (not including)
normalization: extract a fenced block if present and run `json.loads`,
keeping the result only when it is a JSON object.  When the parsed value
is not a dict the subsequent field loop raises (`in` / item assignment
on a non-dict), which the inner `except` turns into the fallback, so a
non-object parse is a failure of this stage. -/
def parsedJudgeObject (response_text : String) : Option (List (String × JsonVal)) :=
  match jsonLoads (extractFenced response_text.data) with
  | some (JsonVal.obj d) => some d
  | _ => none

/-- Embedding of `analyze_with_gemini` from `response = model.generate_content`
onward.  `.error ()` models any exception from the service call (network
failure, SDK error); `.ok text` models a returned `response.text`.  Both
`except` blocks return `default_analysis`; the happy path normalizes the
parsed object.  The function is total: no input raises. -/
def analyze_with_gemini (response : Except Unit String) : List (String × JsonVal) :=
  match response with
  | Except.error _ => default_analysis
  | Except.ok text =>
    match parsedJudgeObject text with
    | some d => normalizeAnalysis d
    | none => default_analysis

/-- Read a numeric field out of an analysis dictionary, as
`combine_analyses`'s float arithmetic would. -/
def getNum (d : List (String × JsonVal)) (key : String) : Option ℚ :=
  match dictGet d key with
  | some (JsonVal.num q) => some q
  | _ => none

/-- The four judge sub-scores `combine_analyses` extracts from the
adapter's dictionary. -/
def toGeminiScores (d : List (String × JsonVal)) : Option GeminiScores :=
  match getNum d "fluency_score", getNum d "vocabulary_score",
      getNum d "grammar_score", getNum d "coherence_score" with
  | some f, some v, some g, some c =>
    some { fluency_score := f, vocabulary_score := v, grammar_score := g,
           coherence_score := c }
  | _, _, _, _ => none

/-! ## Helper lemmas -/

theorem dictGet_dictSet_self (d : List (String × JsonVal)) (k : String) (v : JsonVal) :
    dictGet (dictSet d k v) k = some v := by
  induction d with
  | nil => simp [dictSet, dictGet]
  | cons hd tl ih =>
    obtain ⟨k', v'⟩ := hd
    by_cases h : k' = k <;> simp [dictSet, dictGet, h, ih]

theorem dictGet_dictSet_ne (d : List (String × JsonVal)) (k : String) (v : JsonVal)
    (k' : String) (h : k' ≠ k) : dictGet (dictSet d k v) k' = dictGet d k' := by
  induction d with
  | nil => simp [dictSet, dictGet, Ne.symm h]
  | cons hd tl ih =>
    obtain ⟨k'', v''⟩ := hd
    unfold dictSet
    by_cases h2 : k'' = k
    · subst h2
      simp [dictGet, Ne.symm h]
    · simp [h2, dictGet, ih]

/-- A field untouched by one defaulting iteration keeps its lookup. -/
theorem dictGet_normalizeStep_ne (d : List (String × JsonVal)) (f k : String)
    (h : k ≠ f) : dictGet (normalizeStep d f) k = dictGet d k := by
  unfold normalizeStep
  by_cases h2 : f = "coherence_score"
  · subst h2
    by_cases h1 : (dictGet d "coherence_score").isSome <;>
      simp [h1, dictGet_dictSet_ne _ _ _ _ h]
  · by_cases h1 : (dictGet d f).isSome <;>
      simp [h1, h2, dictGet_dictSet_ne _ _ _ _ h]

/-- After its defaulting iteration, a non-coherence field reads as its
original value with default 6.0. -/
theorem dictGet_normalizeStep_self (d : List (String × JsonVal)) (f : String)
    (hf : f ≠ "coherence_score") :
    dictGet (normalizeStep d f) f = some ((dictGet d f).getD (JsonVal.num 6)) := by
  unfold normalizeStep
  cases hsome : dictGet d f with
  | some v => simp [hsome]
  | none => simp [hsome, hf, dictGet_dictSet_self]

/-- After its defaulting iteration, the coherence field reads as its
original value, with the (already defaulted) fluency value as default. -/
theorem dictGet_normalizeStep_coherence (d : List (String × JsonVal)) :
    dictGet (normalizeStep d "coherence_score") "coherence_score"
      = some ((dictGet d "coherence_score").getD
          ((dictGet d "fluency_score").getD (JsonVal.num 6))) := by
  unfold normalizeStep
  cases hsome : dictGet d "coherence_score" with
  | some v => simp [hsome]
  | none => simp [hsome, dictGet_dictSet_self]

/-- The feedback repair leaves non-feedback fields alone. -/
theorem dictGet_fixFeedback_ne (d : List (String × JsonVal)) (k : String)
    (h : k ≠ "feedback") : dictGet (fixFeedback d) k = dictGet d k := by
  unfold fixFeedback
  cases hfb : dictGet d "feedback" with
  | some v => cases v <;> simp [dictGet_dictSet_ne _ _ _ _ h]
  | none => simp [dictGet_dictSet_ne _ _ _ _ h]

/-- The feedback field after the repair: kept when it was a dict,
replaced with empty lists otherwise. -/
theorem dictGet_fixFeedback_self (d : List (String × JsonVal)) :
    dictGet (fixFeedback d) "feedback"
      = some (match dictGet d "feedback" with
          | some (JsonVal.obj o) => JsonVal.obj o
          | _ => JsonVal.obj
              [("strengths", JsonVal.arr []), ("weaknesses", JsonVal.arr []),
               ("suggestions", JsonVal.arr [])]) := by
  unfold fixFeedback
  cases hfb : dictGet d "feedback" with
  | some v => cases v <;> simp [hfb, dictGet_dictSet_self]
  | none => simp [hfb, dictGet_dictSet_self]

/-! ## Claim theorems -/

/-- C1: for every pair of rule-based and judge analyses, the combined
result blends each sub-score as 0.4×rule + 0.6×judge (rounded at the
output), takes coherence from the judge, computes overall as
0.3×fluency + 0.25×vocabulary + 0.25×grammar + 0.2×coherence over the
unrounded blends, and the returned overall agrees with the blending
formula applied to the returned components within the 1-decimal rounding
epsilon. -/
theorem combine_analyses_blend (nlp : NlpScores) (gemini : GeminiScores) :
    (combine_analyses nlp gemini).fluency_score
      = pyRound1 (nlp.fluency_score * 0.4 + gemini.fluency_score * 0.6)
    ∧ (combine_analyses nlp gemini).vocabulary_score
      = pyRound1 (nlp.vocabulary_score * 0.4 + gemini.vocabulary_score * 0.6)
    ∧ (combine_analyses nlp gemini).grammar_score
      = pyRound1 (nlp.grammar_score * 0.4 + gemini.grammar_score * 0.6)
    ∧ (combine_analyses nlp gemini).coherence_score = pyRound1 gemini.coherence_score
    ∧ (combine_analyses nlp gemini).overall_score
      = pyRound1 ((nlp.fluency_score * 0.4 + gemini.fluency_score * 0.6) * 0.3
          + (nlp.vocabulary_score * 0.4 + gemini.vocabulary_score * 0.6) * 0.25
          + (nlp.grammar_score * 0.4 + gemini.grammar_score * 0.6) * 0.25
          + gemini.coherence_score * 0.2)
    ∧ |(combine_analyses nlp gemini).overall_score
        - ((combine_analyses nlp gemini).fluency_score * 0.3
          + (combine_analyses nlp gemini).vocabulary_score * 0.25
          + (combine_analyses nlp gemini).grammar_score * 0.25
          + (combine_analyses nlp gemini).coherence_score * 0.2)| ≤ 1/10 := by
  refine ⟨rfl, rfl, rfl, rfl, rfl, ?_⟩
  have e0 := pyRound1_err ((nlp.fluency_score * 0.4 + gemini.fluency_score * 0.6) * 0.3
      + (nlp.vocabulary_score * 0.4 + gemini.vocabulary_score * 0.6) * 0.25
      + (nlp.grammar_score * 0.4 + gemini.grammar_score * 0.6) * 0.25
      + gemini.coherence_score * 0.2)
  have e1 := pyRound1_err (nlp.fluency_score * 0.4 + gemini.fluency_score * 0.6)
  have e2 := pyRound1_err (nlp.vocabulary_score * 0.4 + gemini.vocabulary_score * 0.6)
  have e3 := pyRound1_err (nlp.grammar_score * 0.4 + gemini.grammar_score * 0.6)
  have e4 := pyRound1_err gemini.coherence_score
  show |pyRound1 ((nlp.fluency_score * 0.4 + gemini.fluency_score * 0.6) * 0.3
      + (nlp.vocabulary_score * 0.4 + gemini.vocabulary_score * 0.6) * 0.25
      + (nlp.grammar_score * 0.4 + gemini.grammar_score * 0.6) * 0.25
      + gemini.coherence_score * 0.2)
      - (pyRound1 (nlp.fluency_score * 0.4 + gemini.fluency_score * 0.6) * 0.3
        + pyRound1 (nlp.vocabulary_score * 0.4 + gemini.vocabulary_score * 0.6) * 0.25
        + pyRound1 (nlp.grammar_score * 0.4 + gemini.grammar_score * 0.6) * 0.25
        + pyRound1 gemini.coherence_score * 0.2)| ≤ 1/10
  rw [abs_le] at e0 e1 e2 e3 e4 ⊢
  obtain ⟨e0a, e0b⟩ := e0
  obtain ⟨e1a, e1b⟩ := e1
  obtain ⟨e2a, e2b⟩ := e2
  obtain ⟨e3a, e3b⟩ := e3
  obtain ⟨e4a, e4b⟩ := e4
  constructor <;> linarith

/-- C2: for every transcript and every value of the externally derived
metrics (including all degenerate cases), each rule-based sub-score lies
in the band range [0,9], and each score is literally the weighted
combination of its per-component clamps (clamp-then-combine). -/
theorem rule_scores_in_band (t : String) (wc sc : ℕ) (fk sd : ℚ)
    (tw uw : ℕ) (awl asy awr : ℚ) (e : ℕ) :
    (0 ≤ analyze_fluency t wc sc fk sd ∧ analyze_fluency t wc sc fk sd ≤ 9)
    ∧ (0 ≤ analyze_vocabulary tw uw awl asy awr ∧ analyze_vocabulary tw uw awl asy awr ≤ 9)
    ∧ (0 ≤ analyze_grammar t e ∧ analyze_grammar t e ≤ 9)
    ∧ analyze_fluency t wc sc fk sd
      = clamp09 (4.5 + (150 - 120) / 20) * 0.3
        + clamp09 (9 - ((fillerCount t : ℚ) / max 1 (wc : ℚ)) * 100) * 0.3
        + clamp09 (4.5 + (fk - 7) * 0.5) * 0.2
        + clamp09 (4.5 + (if 1 < sc then sd else 0) * 0.5) * 0.2
    ∧ analyze_vocabulary tw uw awl asy awr
      = clamp09 ((if 0 < tw then (uw : ℚ) / (tw : ℚ) else 0) * 15) * 0.4
        + clamp09 (4.5 + ((if 0 < tw then awl else 0) - 4.5) * 1.5) * 0.2
        + clamp09 (4.5 + ((if 0 < tw then asy else 0) - 1.5) * 3) * 0.2
        + clamp09 (4.5 - (if 0 < tw then awr else 0) / 10000) * 0.2
    ∧ analyze_grammar t e = clamp09 (9 - grammar_error_density t e) := by
  have hf : analyze_fluency t wc sc fk sd
      = clamp09 (4.5 + (150 - 120) / 20) * 0.3
        + clamp09 (9 - ((fillerCount t : ℚ) / max 1 (wc : ℚ)) * 100) * 0.3
        + clamp09 (4.5 + (fk - 7) * 0.5) * 0.2
        + clamp09 (4.5 + (if 1 < sc then sd else 0) * 0.5) * 0.2 := rfl
  have hv : analyze_vocabulary tw uw awl asy awr
      = clamp09 ((if 0 < tw then (uw : ℚ) / (tw : ℚ) else 0) * 15) * 0.4
        + clamp09 (4.5 + ((if 0 < tw then awl else 0) - 4.5) * 1.5) * 0.2
        + clamp09 (4.5 + ((if 0 < tw then asy else 0) - 1.5) * 3) * 0.2
        + clamp09 (4.5 - (if 0 < tw then awr else 0) / 10000) * 0.2 := rfl
  have hg : analyze_grammar t e = clamp09 (9 - grammar_error_density t e) := rfl
  refine ⟨⟨?_, ?_⟩, ⟨?_, ?_⟩, ⟨?_, ?_⟩, hf, hv, hg⟩
  · rw [hf]
    have h1 := clamp09_nonneg (4.5 + (150 - 120) / 20)
    have h2 := clamp09_nonneg (9 - ((fillerCount t : ℚ) / max 1 (wc : ℚ)) * 100)
    have h3 := clamp09_nonneg (4.5 + (fk - 7) * 0.5)
    have h4 := clamp09_nonneg (4.5 + (if 1 < sc then sd else 0) * 0.5)
    linarith
  · rw [hf]
    have h1 := clamp09_le_nine (4.5 + (150 - 120) / 20)
    have h2 := clamp09_le_nine (9 - ((fillerCount t : ℚ) / max 1 (wc : ℚ)) * 100)
    have h3 := clamp09_le_nine (4.5 + (fk - 7) * 0.5)
    have h4 := clamp09_le_nine (4.5 + (if 1 < sc then sd else 0) * 0.5)
    linarith
  · rw [hv]
    have h1 := clamp09_nonneg ((if 0 < tw then (uw : ℚ) / (tw : ℚ) else 0) * 15)
    have h2 := clamp09_nonneg (4.5 + ((if 0 < tw then awl else 0) - 4.5) * 1.5)
    have h3 := clamp09_nonneg (4.5 + ((if 0 < tw then asy else 0) - 1.5) * 3)
    have h4 := clamp09_nonneg (4.5 - (if 0 < tw then awr else 0) / 10000)
    linarith
  · rw [hv]
    have h1 := clamp09_le_nine ((if 0 < tw then (uw : ℚ) / (tw : ℚ) else 0) * 15)
    have h2 := clamp09_le_nine (4.5 + ((if 0 < tw then awl else 0) - 4.5) * 1.5)
    have h3 := clamp09_le_nine (4.5 + ((if 0 < tw then asy else 0) - 1.5) * 3)
    have h4 := clamp09_le_nine (4.5 - (if 0 < tw then awr else 0) / 10000)
    linarith
  · rw [hg]; exact clamp09_nonneg _
  · rw [hg]; exact clamp09_le_nine _

/-- C5: after recording the scores s1..sn for a fresh identity, the
progress row holds test_count = n, total_score = Σsi,
average_score = Σsi/n and latest_score = sn; the first record creates
the row as (1, s1, s1, s1) and each later record applies the
incremental update. -/
theorem update_user_progress_law (l : List ℚ) (h : l ≠ []) :
    recordScores l = some
      { test_count := l.length
        total_score := l.sum
        average_score := l.sum / (l.length : ℚ)
        latest_score := l.getLast?.getD 0 } := by
  induction l using List.reverseRecOn with
  | nil => exact absurd rfl h
  | append_singleton l' s ih =>
    by_cases hl : l' = []
    · subst hl
      simp only [recordScores, List.nil_append, List.foldl_cons, List.foldl_nil,
        update_user_progress]
      norm_num
    · have ihp := ih hl
      simp only [recordScores, List.foldl_append, List.foldl_cons, List.foldl_nil] at ihp ⊢
      rw [show l'.foldl (fun p s => some (update_user_progress p s)) none
            = recordScores l' from rfl] at ihp ⊢
      rw [ihp]
      simp only [update_user_progress, Option.some.injEq, UserProgress.mk.injEq]
      refine ⟨by simp, by simp, ?_, by simp⟩
      simp only [List.sum_append, List.length_append, List.sum_cons, List.sum_nil,
        List.length_cons, List.length_nil]
      push_cast
      ring

/-- C5 witness: recording 6.0 then 8.0 for a fresh identity yields
(test_count 2, total 14.0, average 7.0, latest 8.0), the spec's
scenario C. -/
theorem update_user_progress_law_witness :
    (([6, 8] : List ℚ) ≠ [])
    ∧ recordScores [6, 8] = some
        { test_count := 2, total_score := 14, average_score := 7, latest_score := 8 } := by
  refine ⟨by simp, ?_⟩
  rw [update_user_progress_law [6, 8] (by simp)]
  norm_num

/-- C3: for any failing judge interaction — an exception from the
service call, or any response text that does not parse to a JSON
object — the adapter returns the fixed neutral analysis (all five
scores 6.0, the fixed feedback strings); being a total Lean function,
it never raises. -/
theorem gemini_fallback_total :
    analyze_with_gemini (Except.error ()) = default_analysis
    ∧ (∀ t : String, parsedJudgeObject t = none →
        analyze_with_gemini (Except.ok t) = default_analysis)
    ∧ getNum default_analysis "fluency_score" = some 6
    ∧ getNum default_analysis "vocabulary_score" = some 6
    ∧ getNum default_analysis "grammar_score" = some 6
    ∧ getNum default_analysis "coherence_score" = some 6
    ∧ getNum default_analysis "overall_score" = some 6
    ∧ dictGet default_analysis "feedback" = some (JsonVal.str neutralFeedback) := by
  refine ⟨rfl, ?_, rfl, rfl, rfl, rfl, rfl, rfl⟩
  intro t ht
  simp [analyze_with_gemini, ht]

/-- C3 witness: a plain-prose response body fails to parse and produces
the neutral fallback. -/
theorem gemini_fallback_total_witness :
    parsedJudgeObject "I cannot assess this response." = none
    ∧ analyze_with_gemini (Except.ok "I cannot assess this response.") = default_analysis :=
  ⟨rfl, gemini_fallback_total.2.1 "I cannot assess this response." rfl⟩

/-- C6: for every judge response that parses to a JSON object, the
normalized analysis is fully populated: each missing score field
defaults to 6.0, a missing coherence_score defaults to the (possibly
already defaulted) fluency_score, and a missing or non-dict feedback
becomes empty strengths/weaknesses/suggestions lists. -/
theorem normalize_defaults (t : String) (d : List (String × JsonVal))
    (h : parsedJudgeObject t = some d) :
    dictGet (analyze_with_gemini (Except.ok t)) "fluency_score"
      = some ((dictGet d "fluency_score").getD (JsonVal.num 6))
    ∧ dictGet (analyze_with_gemini (Except.ok t)) "vocabulary_score"
      = some ((dictGet d "vocabulary_score").getD (JsonVal.num 6))
    ∧ dictGet (analyze_with_gemini (Except.ok t)) "grammar_score"
      = some ((dictGet d "grammar_score").getD (JsonVal.num 6))
    ∧ dictGet (analyze_with_gemini (Except.ok t)) "coherence_score"
      = some ((dictGet d "coherence_score").getD
          ((dictGet d "fluency_score").getD (JsonVal.num 6)))
    ∧ dictGet (analyze_with_gemini (Except.ok t)) "overall_score"
      = some ((dictGet d "overall_score").getD (JsonVal.num 6))
    ∧ dictGet (analyze_with_gemini (Except.ok t)) "feedback"
      = some (match dictGet d "feedback" with
          | some (JsonVal.obj o) => JsonVal.obj o
          | _ => JsonVal.obj
              [("strengths", JsonVal.arr []), ("weaknesses", JsonVal.arr []),
               ("suggestions", JsonVal.arr [])]) := by
  have hrun : analyze_with_gemini (Except.ok t) = normalizeAnalysis d := by
    simp [analyze_with_gemini, h]
  have hfold : normalizeAnalysis d
      = fixFeedback (normalizeStep (normalizeStep (normalizeStep (normalizeStep
          (normalizeStep (normalizeStep d "fluency_score") "vocabulary_score")
          "grammar_score") "coherence_score") "overall_score") "feedback") := rfl
  rw [hrun, hfold]
  refine ⟨?_, ?_, ?_, ?_, ?_, ?_⟩
  · rw [dictGet_fixFeedback_ne _ "fluency_score" (by decide),
      dictGet_normalizeStep_ne _ "feedback" "fluency_score" (by decide),
      dictGet_normalizeStep_ne _ "overall_score" "fluency_score" (by decide),
      dictGet_normalizeStep_ne _ "coherence_score" "fluency_score" (by decide),
      dictGet_normalizeStep_ne _ "grammar_score" "fluency_score" (by decide),
      dictGet_normalizeStep_ne _ "vocabulary_score" "fluency_score" (by decide),
      dictGet_normalizeStep_self _ "fluency_score" (by decide)]
  · rw [dictGet_fixFeedback_ne _ "vocabulary_score" (by decide),
      dictGet_normalizeStep_ne _ "feedback" "vocabulary_score" (by decide),
      dictGet_normalizeStep_ne _ "overall_score" "vocabulary_score" (by decide),
      dictGet_normalizeStep_ne _ "coherence_score" "vocabulary_score" (by decide),
      dictGet_normalizeStep_ne _ "grammar_score" "vocabulary_score" (by decide),
      dictGet_normalizeStep_self _ "vocabulary_score" (by decide),
      dictGet_normalizeStep_ne _ "fluency_score" "vocabulary_score" (by decide)]
  · rw [dictGet_fixFeedback_ne _ "grammar_score" (by decide),
      dictGet_normalizeStep_ne _ "feedback" "grammar_score" (by decide),
      dictGet_normalizeStep_ne _ "overall_score" "grammar_score" (by decide),
      dictGet_normalizeStep_ne _ "coherence_score" "grammar_score" (by decide),
      dictGet_normalizeStep_self _ "grammar_score" (by decide),
      dictGet_normalizeStep_ne _ "vocabulary_score" "grammar_score" (by decide),
      dictGet_normalizeStep_ne _ "fluency_score" "grammar_score" (by decide)]
  · rw [dictGet_fixFeedback_ne _ "coherence_score" (by decide),
      dictGet_normalizeStep_ne _ "feedback" "coherence_score" (by decide),
      dictGet_normalizeStep_ne _ "overall_score" "coherence_score" (by decide),
      dictGet_normalizeStep_coherence,
      dictGet_normalizeStep_ne _ "grammar_score" "coherence_score" (by decide),
      dictGet_normalizeStep_ne _ "vocabulary_score" "coherence_score" (by decide),
      dictGet_normalizeStep_ne _ "fluency_score" "coherence_score" (by decide),
      dictGet_normalizeStep_ne _ "grammar_score" "fluency_score" (by decide),
      dictGet_normalizeStep_ne _ "vocabulary_score" "fluency_score" (by decide),
      dictGet_normalizeStep_self _ "fluency_score" (by decide),
      Option.getD_some]
  · rw [dictGet_fixFeedback_ne _ "overall_score" (by decide),
      dictGet_normalizeStep_ne _ "feedback" "overall_score" (by decide),
      dictGet_normalizeStep_self _ "overall_score" (by decide),
      dictGet_normalizeStep_ne _ "coherence_score" "overall_score" (by decide),
      dictGet_normalizeStep_ne _ "grammar_score" "overall_score" (by decide),
      dictGet_normalizeStep_ne _ "vocabulary_score" "overall_score" (by decide),
      dictGet_normalizeStep_ne _ "fluency_score" "overall_score" (by decide)]
  · rw [dictGet_fixFeedback_self,
      dictGet_normalizeStep_self _ "feedback" (by decide),
      dictGet_normalizeStep_ne _ "overall_score" "feedback" (by decide),
      dictGet_normalizeStep_ne _ "coherence_score" "feedback" (by decide),
      dictGet_normalizeStep_ne _ "grammar_score" "feedback" (by decide),
      dictGet_normalizeStep_ne _ "vocabulary_score" "feedback" (by decide),
      dictGet_normalizeStep_ne _ "fluency_score" "feedback" (by decide)]
    cases hfb : dictGet d "feedback" with
    | some v => cases v <;> rfl
    | none => rfl

/-- C6 witness: a parsed object carrying only overall_score 8 is
normalized to fluency 6, vocabulary 6, grammar 6, coherence 6 (from the
defaulted fluency), overall 8 kept, and empty feedback lists. -/
theorem normalize_defaults_witness :
    parsedJudgeObject "\x7b\"overall_score\": 8\x7d"
      = some [("overall_score", JsonVal.num 8)]
    ∧ (dictGet (analyze_with_gemini (Except.ok "\x7b\"overall_score\": 8\x7d")) "fluency_score"
        = some ((dictGet [("overall_score", JsonVal.num 8)] "fluency_score").getD (JsonVal.num 6))
      ∧ dictGet (analyze_with_gemini (Except.ok "\x7b\"overall_score\": 8\x7d")) "vocabulary_score"
        = some ((dictGet [("overall_score", JsonVal.num 8)] "vocabulary_score").getD (JsonVal.num 6))
      ∧ dictGet (analyze_with_gemini (Except.ok "\x7b\"overall_score\": 8\x7d")) "grammar_score"
        = some ((dictGet [("overall_score", JsonVal.num 8)] "grammar_score").getD (JsonVal.num 6))
      ∧ dictGet (analyze_with_gemini (Except.ok "\x7b\"overall_score\": 8\x7d")) "coherence_score"
        = some ((dictGet [("overall_score", JsonVal.num 8)] "coherence_score").getD
            ((dictGet [("overall_score", JsonVal.num 8)] "fluency_score").getD (JsonVal.num 6)))
      ∧ dictGet (analyze_with_gemini (Except.ok "\x7b\"overall_score\": 8\x7d")) "overall_score"
        = some ((dictGet [("overall_score", JsonVal.num 8)] "overall_score").getD (JsonVal.num 6))
      ∧ dictGet (analyze_with_gemini (Except.ok "\x7b\"overall_score\": 8\x7d")) "feedback"
        = some (match dictGet [("overall_score", JsonVal.num 8)] "feedback" with
            | some (JsonVal.obj o) => JsonVal.obj o
            | _ => JsonVal.obj
                [("strengths", JsonVal.arr []), ("weaknesses", JsonVal.arr []),
                 ("suggestions", JsonVal.arr [])])) :=
  ⟨rfl, normalize_defaults "\x7b\"overall_score\": 8\x7d" [("overall_score", JsonVal.num 8)] rfl⟩

/-- C7: a judge response wrapped in a fenced code block is extracted and
parsed successfully; a fenced body with `"fluency_score": 7.5` yields
fluency 7.5 from the adapter, not a parse failure. -/
theorem fenced_json_extracted :
    parsedJudgeObject "```json\n\x7b\"fluency_score\": 7.5\x7d\n```"
      = some [("fluency_score", JsonVal.num ((7 : ℚ) + 5 / 10 ^ 1))]
    ∧ getNum (analyze_with_gemini
        (Except.ok "```json\n\x7b\"fluency_score\": 7.5\x7d\n```")) "fluency_score"
      = some (15/2 : ℚ) := by
  have h : parsedJudgeObject "```json\n\x7b\"fluency_score\": 7.5\x7d\n```"
      = some [("fluency_score", JsonVal.num ((7 : ℚ) + 5 / 10 ^ 1))] := rfl
  have h7 : '7'.toNat - 48 = 7 := rfl
  have h5 : '5'.toNat - 48 = 5 := rfl
  refine ⟨h, ?_⟩
  simp only [analyze_with_gemini, h, normalizeAnalysis, required_fields, normalizeStep,
    fixFeedback, List.foldl, dictGet, dictSet, getNum, h7, h5]
  norm_num

/-- C4 counterexample: with rule-based fluency 6.37 (rate 6.0, no
fillers, readability grade 7.7, single sentence) and judge fluency 6.0,
the pipeline blends the ROUNDED rule score 6.4 and returns 6.2, while
blending the full-precision 6.37 would return 6.1 — so the blending does
not operate on unrounded intermediate values. -/
theorem rounding_boundary_counterexample :
    analyze_fluency "" 10 1 (77/10) 0 = 637/100
    ∧ (combine_analyses (analyze_speech "" 10 1 (77/10) 0 0 0 0 0 0 0).scores
        ⟨6, 6, 6, 6⟩).fluency_score = 31/5
    ∧ pyRound1 (analyze_fluency "" 10 1 (77/10) 0 * 0.4 + 6 * 0.6) = 61/10
    ∧ (31/5 : ℚ) ≠ 61/10 := by
  have hfc : fillerCount "" = 0 := rfl
  have hsw : splitWordCount "" = 0 := rfl
  have hfl : analyze_fluency "" 10 1 (77/10) 0 = 637/100 := by
    norm_num [analyze_fluency, hfc, clamp09]
  refine ⟨hfl, ?_, ?_, by norm_num⟩
  · simp only [combine_analyses, analyze_speech, NlpResult.scores, hfl]
    norm_num [analyze_vocabulary, analyze_grammar, hsw, clamp09, calculate_overall_score,
      pyRound1, roundHalfEven]
  · rw [hfl]
    norm_num [pyRound1, roundHalfEven]

/-- C4 amended: rounding is applied at each stage's own return, not once
at the end of the pipeline — `analyze_speech` returns 1-decimal-rounded
sub-scores, and `combine_analyses` blends those already-rounded rule
scores (at full precision from there on, with overall computed from the
unrounded blends) before rounding its own outputs. -/
theorem pipeline_rounding_placement (t : String) (wc sc : ℕ) (fk sd : ℚ)
    (tw uw : ℕ) (awl asy awr : ℚ) (e : ℕ) (gemini : GeminiScores) :
    (combine_analyses (analyze_speech t wc sc fk sd tw uw awl asy awr e).scores
        gemini).fluency_score
      = pyRound1 (pyRound1 (analyze_fluency t wc sc fk sd) * 0.4
          + gemini.fluency_score * 0.6)
    ∧ (combine_analyses (analyze_speech t wc sc fk sd tw uw awl asy awr e).scores
        gemini).vocabulary_score
      = pyRound1 (pyRound1 (analyze_vocabulary tw uw awl asy awr) * 0.4
          + gemini.vocabulary_score * 0.6)
    ∧ (combine_analyses (analyze_speech t wc sc fk sd tw uw awl asy awr e).scores
        gemini).grammar_score
      = pyRound1 (pyRound1 (analyze_grammar t e) * 0.4 + gemini.grammar_score * 0.6)
    ∧ (combine_analyses (analyze_speech t wc sc fk sd tw uw awl asy awr e).scores
        gemini).coherence_score = pyRound1 gemini.coherence_score
    ∧ (combine_analyses (analyze_speech t wc sc fk sd tw uw awl asy awr e).scores
        gemini).overall_score
      = pyRound1 ((pyRound1 (analyze_fluency t wc sc fk sd) * 0.4
            + gemini.fluency_score * 0.6) * 0.3
          + (pyRound1 (analyze_vocabulary tw uw awl asy awr) * 0.4
            + gemini.vocabulary_score * 0.6) * 0.25
          + (pyRound1 (analyze_grammar t e) * 0.4 + gemini.grammar_score * 0.6) * 0.25
          + gemini.coherence_score * 0.2) :=
  ⟨rfl, rfl, rfl, rfl, rfl⟩

/-- C8 counterexample: "um um" has strictly more filler occurrences than
"um", yet at word count 8 both filler ratios saturate the lower clamp of
`9 − filler_ratio×100`, so the fluency scores are equal — more fillers
does not always give a strictly lower fluency score. -/
theorem filler_strict_counterexample :
    fillerCount "um" < fillerCount "um um"
    ∧ analyze_fluency "um um" 8 1 0 0 = analyze_fluency "um" 8 1 0 0 := by
  have h1 : fillerCount "um um" = 2 := rfl
  have h2 : fillerCount "um" = 1 := rfl
  refine ⟨by rw [h1, h2]; norm_num, ?_⟩
  norm_num [analyze_fluency, h1, h2, clamp09]

/-- C8 amended: with word count, sentence statistics and readability
grade held equal, a transcript with more filler occurrences gets a
strictly lower fluency score provided the larger filler ratio has not
saturated the clamp (filler_ratio×100 < 9); the mechanism is
`filler_score = 9 − filler_ratio×100` clamped to [0,9]. -/
theorem filler_monotone_unsaturated (t1 t2 : String) (wc sc : ℕ) (fk sd : ℚ)
    (hcount : fillerCount t1 < fillerCount t2)
    (hunsat : ((fillerCount t2 : ℚ) / max 1 (wc : ℚ)) * 100 < 9) :
    analyze_fluency t2 wc sc fk sd < analyze_fluency t1 wc sc fk sd := by
  have hwpos : (0 : ℚ) < max 1 (wc : ℚ) := lt_of_lt_of_le one_pos (le_max_left _ _)
  have hr12 : ((fillerCount t1 : ℚ) / max 1 (wc : ℚ)) * 100
      < ((fillerCount t2 : ℚ) / max 1 (wc : ℚ)) * 100 := by
    have : (fillerCount t1 : ℚ) < (fillerCount t2 : ℚ) := by exact_mod_cast hcount
    have hdiv : (fillerCount t1 : ℚ) / max 1 (wc : ℚ)
        < (fillerCount t2 : ℚ) / max 1 (wc : ℚ) :=
      (div_lt_div_iff_of_pos_right hwpos).mpr this
    linarith
  have hr1nn : 0 ≤ ((fillerCount t1 : ℚ) / max 1 (wc : ℚ)) * 100 := by
    have : (0 : ℚ) ≤ (fillerCount t1 : ℚ) / max 1 (wc : ℚ) :=
      div_nonneg (Nat.cast_nonneg _) (le_of_lt hwpos)
    linarith
  have hc2 : clamp09 (9 - ((fillerCount t2 : ℚ) / max 1 (wc : ℚ)) * 100)
      = 9 - ((fillerCount t2 : ℚ) / max 1 (wc : ℚ)) * 100 := by
    unfold clamp09
    rw [max_eq_right (by linarith), min_eq_right (by linarith)]
  have hc1 : clamp09 (9 - ((fillerCount t1 : ℚ) / max 1 (wc : ℚ)) * 100)
      = 9 - ((fillerCount t1 : ℚ) / max 1 (wc : ℚ)) * 100 := by
    unfold clamp09
    rw [max_eq_right (by linarith), min_eq_right (by linarith)]
  have he2 : analyze_fluency t2 wc sc fk sd
      = clamp09 (4.5 + (150 - 120) / 20) * 0.3
        + clamp09 (9 - ((fillerCount t2 : ℚ) / max 1 (wc : ℚ)) * 100) * 0.3
        + clamp09 (4.5 + (fk - 7) * 0.5) * 0.2
        + clamp09 (4.5 + (if 1 < sc then sd else 0) * 0.5) * 0.2 := rfl
  have he1 : analyze_fluency t1 wc sc fk sd
      = clamp09 (4.5 + (150 - 120) / 20) * 0.3
        + clamp09 (9 - ((fillerCount t1 : ℚ) / max 1 (wc : ℚ)) * 100) * 0.3
        + clamp09 (4.5 + (fk - 7) * 0.5) * 0.2
        + clamp09 (4.5 + (if 1 < sc then sd else 0) * 0.5) * 0.2 := rfl
  rw [he1, he2, hc1, hc2]
  linarith

/-- C8 witness: the spec's scenario-A transcript with fillers scores
strictly below a filler-free transcript at word count 30 (where the
filler ratio does not saturate the clamp). -/
theorem filler_monotone_unsaturated_witness :
    fillerCount "I think the city is nice" < fillerCount "Um, I think, uh, the city is nice."
    ∧ ((fillerCount "Um, I think, uh, the city is nice." : ℚ) / max 1 ((30 : ℕ) : ℚ)) * 100 < 9
    ∧ analyze_fluency "Um, I think, uh, the city is nice." 30 1 0 0
      < analyze_fluency "I think the city is nice" 30 1 0 0 := by
  have h1 : fillerCount "I think the city is nice" = 0 := rfl
  have h2 : fillerCount "Um, I think, uh, the city is nice." = 2 := rfl
  have hc : fillerCount "I think the city is nice"
      < fillerCount "Um, I think, uh, the city is nice." := by rw [h1, h2]; norm_num
  have hu : ((fillerCount "Um, I think, uh, the city is nice." : ℚ)
      / max 1 ((30 : ℕ) : ℚ)) * 100 < 9 := by
    rw [h2]; norm_num
  exact ⟨hc, hu,
    filler_monotone_unsaturated "I think the city is nice"
      "Um, I think, uh, the city is nice." 30 1 0 0 hc hu⟩

/-- C9 counterexample: for the transcript "Hello , world" (tokenized by
the NLP layer as Hello / , / world with the comma flagged as
punctuation), the metrics-bundle word count is 2 but `analyze_grammar`
divides by `len(transcript.split())` = 3, so with one detected error the
code's density is 100/3 while the claimed token-based density is 50. -/
theorem grammar_wordcount_counterexample :
    splitWordCount "Hello , world" = 3
    ∧ docWordCount [⟨"Hello", false, false⟩, ⟨",", true, false⟩, ⟨"world", false, false⟩] = 2
    ∧ grammar_error_density "Hello , world" 1 = 100/3
    ∧ grammar_error_density_spec
        [⟨"Hello", false, false⟩, ⟨",", true, false⟩, ⟨"world", false, false⟩] 1 = 50
    ∧ (100/3 : ℚ) ≠ 50 := by
  have hs : splitWordCount "Hello , world" = 3 := rfl
  have hd : docWordCount
      [⟨"Hello", false, false⟩, ⟨",", true, false⟩, ⟨"world", false, false⟩] = 2 := rfl
  refine ⟨hs, hd, ?_, ?_, by norm_num⟩
  · rw [grammar_error_density, hs]; norm_num
  · rw [grammar_error_density_spec, hd]; norm_num

/-- C9 amended: `grammar_error_density` equals the detected error count
divided by `max(1, N)` times 100 where N is the number of
whitespace-separated chunks of the raw transcript
(`len(transcript.split())`) — not the punctuation-free token count the
other metrics use — and the grammar score clamps `9 − density`. -/
theorem grammar_density_uses_split (t : String) (e : ℕ) :
    grammar_error_density t e = ((e : ℚ) / max 1 (splitWordCount t : ℚ)) * 100
    ∧ analyze_grammar t e = clamp09 (9 - grammar_error_density t e) :=
  ⟨rfl, rfl⟩

set_option maxRecDepth 8000 in
/-- C10: on the successful-parse path the adapter passes numeric scores
through without range validation; a judge response with all scores 100
survives to the blend, whose sub-scores (62.4) and overall (69.9) lie
far outside [0,9]. -/
theorem judge_scores_unclamped :
    getNum (analyze_with_gemini (Except.ok
        "\x7b\"fluency_score\": 100, \"vocabulary_score\": 100, \"grammar_score\": 100, \"coherence_score\": 100, \"overall_score\": 100, \"feedback\": \x7b\x7d\x7d"))
      "fluency_score" = some 100
    ∧ toGeminiScores (analyze_with_gemini (Except.ok
        "\x7b\"fluency_score\": 100, \"vocabulary_score\": 100, \"grammar_score\": 100, \"coherence_score\": 100, \"overall_score\": 100, \"feedback\": \x7b\x7d\x7d"))
      = some ⟨100, 100, 100, 100⟩
    ∧ (combine_analyses ⟨6, 6, 6⟩ ⟨100, 100, 100, 100⟩).fluency_score = 312/5
    ∧ 9 < (combine_analyses ⟨6, 6, 6⟩ ⟨100, 100, 100, 100⟩).fluency_score
    ∧ (combine_analyses ⟨6, 6, 6⟩ ⟨100, 100, 100, 100⟩).overall_score = 699/10
    ∧ 9 < (combine_analyses ⟨6, 6, 6⟩ ⟨100, 100, 100, 100⟩).overall_score := by
  have h : parsedJudgeObject
      "\x7b\"fluency_score\": 100, \"vocabulary_score\": 100, \"grammar_score\": 100, \"coherence_score\": 100, \"overall_score\": 100, \"feedback\": \x7b\x7d\x7d"
      = some [("fluency_score", JsonVal.num 100), ("vocabulary_score", JsonVal.num 100),
              ("grammar_score", JsonVal.num 100), ("coherence_score", JsonVal.num 100),
              ("overall_score", JsonVal.num 100), ("feedback", JsonVal.obj [])] := rfl
  have hrun : analyze_with_gemini (Except.ok
      "\x7b\"fluency_score\": 100, \"vocabulary_score\": 100, \"grammar_score\": 100, \"coherence_score\": 100, \"overall_score\": 100, \"feedback\": \x7b\x7d\x7d")
      = [("fluency_score", JsonVal.num 100), ("vocabulary_score", JsonVal.num 100),
         ("grammar_score", JsonVal.num 100), ("coherence_score", JsonVal.num 100),
         ("overall_score", JsonVal.num 100), ("feedback", JsonVal.obj [])] := rfl
  refine ⟨by rw [hrun]; rfl, by rw [hrun]; rfl, ?_, ?_, ?_, ?_⟩ <;>
    norm_num [combine_analyses, pyRound1, roundHalfEven]

end IELTS
